import Mathlib

/-!
Shallow embedding of the aggregation, widget-layout and mock-data logic of the
drag-and-drop dashboard repository (a Vite/React TypeScript app).  The embedded
functions mirror, line by line, `DatabaseManager` (getMetrics,
getRevenueByMonth, updateSalesRecord), the `App` component's widget operations
and startup load effect, the `TableWidget` structural edits, and the
`DatasetViewer` metric card.  Numbers are modelled as rationals; the one place
where JavaScript's NaN is reachable (the completion-rate division) uses an
explicit JavaScript-number type.  JavaScript objects used as string-keyed
accumulators are modelled as association lists in insertion order (the
repository's keys are product / region names and "Mon YY" month labels, none of
which are array-index-like strings, so `Object.entries` enumerates them in
insertion order).
-/

namespace Dashboard

/-! ## JavaScript number model (only where NaN / Infinity are reachable) -/

/-- A JavaScript `number` as used by the aggregator: a finite value, `NaN`,
or a signed infinity. -/
inductive JsNum where
  | num (q : ℚ)
  | nan
  | inf
  | ninf
deriving DecidableEq, Repr

/-- JavaScript division on `JsNum` (IEEE-754 semantics restricted to the
constructors above: `0/0 = NaN`, `x/0 = ±∞` for `x ≠ 0`, NaN propagates). -/
def jsDiv : JsNum → JsNum → JsNum
  | JsNum.num a, JsNum.num b =>
      if b = 0 then (if a = 0 then JsNum.nan else if a > 0 then JsNum.inf else JsNum.ninf)
      else JsNum.num (a / b)
  | JsNum.nan, _ => JsNum.nan
  | _, JsNum.nan => JsNum.nan
  | JsNum.num _, JsNum.inf => JsNum.num 0
  | JsNum.num _, JsNum.ninf => JsNum.num 0
  | JsNum.inf, JsNum.num b => if b ≥ 0 then JsNum.inf else JsNum.ninf
  | JsNum.ninf, JsNum.num b => if b ≥ 0 then JsNum.ninf else JsNum.inf
  | JsNum.inf, JsNum.inf => JsNum.nan
  | JsNum.inf, JsNum.ninf => JsNum.nan
  | JsNum.ninf, JsNum.inf => JsNum.nan
  | JsNum.ninf, JsNum.ninf => JsNum.nan

/-- JavaScript multiplication on `JsNum` (NaN propagates, `±∞ * 0 = NaN`). -/
def jsMul : JsNum → JsNum → JsNum
  | JsNum.num a, JsNum.num b => JsNum.num (a * b)
  | JsNum.nan, _ => JsNum.nan
  | _, JsNum.nan => JsNum.nan
  | JsNum.inf, JsNum.num b => if b = 0 then JsNum.nan else if b > 0 then JsNum.inf else JsNum.ninf
  | JsNum.num a, JsNum.inf => if a = 0 then JsNum.nan else if a > 0 then JsNum.inf else JsNum.ninf
  | JsNum.ninf, JsNum.num b => if b = 0 then JsNum.nan else if b > 0 then JsNum.ninf else JsNum.inf
  | JsNum.num a, JsNum.ninf => if a = 0 then JsNum.nan else if a > 0 then JsNum.ninf else JsNum.inf
  | JsNum.inf, JsNum.inf => JsNum.inf
  | JsNum.inf, JsNum.ninf => JsNum.ninf
  | JsNum.ninf, JsNum.inf => JsNum.ninf
  | JsNum.ninf, JsNum.ninf => JsNum.inf

/-- `isNaN` test, as used by the dataset viewer's display guard. -/
def jsIsNaN : JsNum → Bool
  | JsNum.nan => true
  | _ => false

/-- `Math.round` on a finite value: JavaScript rounds half toward +∞. -/
def jsRound (q : ℚ) : ℤ := ⌊q + 1 / 2⌋

/-! ## Calendar dates

A sales record's `date` field is a `"YYYY-MM-DD"` string in the source;
`new Date(record.date)` yields the UTC-midnight timestamp of that calendar
day.  We model the field as a civil-date triple and recover the timestamp via
the standard days-from-civil (proleptic Gregorian) conversion, so `Date`
comparisons in the source become integer comparisons of milliseconds here.
The runtime's locale/timezone is modelled as UTC. -/

/-- A calendar date: year, month (1-12), day (1-31). -/
structure CivilDate where
  year : ℤ
  month : ℕ
  day : ℕ
deriving DecidableEq, Repr

/-- Days since the Unix epoch of a civil date (Gregorian calendar, standard
`days_from_civil` algorithm; `Int.tdiv` is division truncating toward zero,
the convention the algorithm is written for). -/
def daysFromCivil (y : ℤ) (m : ℕ) (d : ℕ) : ℤ :=
  let yAdj : ℤ := if m ≤ 2 then y - 1 else y
  let era : ℤ := Int.tdiv (if yAdj ≥ 0 then yAdj else yAdj - 399) 400
  let yoe : ℤ := yAdj - era * 400
  let mp : ℤ := if m > 2 then (m : ℤ) - 3 else (m : ℤ) + 9
  let doy : ℤ := Int.tdiv (153 * mp + 2) 5 + (d : ℤ) - 1
  let doe : ℤ := yoe * 365 + Int.tdiv yoe 4 - Int.tdiv yoe 100 + doy
  era * 146097 + doe - 719468

/-- Milliseconds since the Unix epoch of the UTC midnight of a civil date:
the value of `new Date("YYYY-MM-DD").getTime()`. -/
def CivilDate.toMillis (dt : CivilDate) : ℤ :=
  daysFromCivil dt.year dt.month dt.day * 86400000

/-- `30 * 24 * 60 * 60 * 1000` — thirty days in milliseconds. -/
def thirtyDaysMs : ℤ := 30 * 24 * 60 * 60 * 1000

/-! ## Data model (`src/lib/supabase.ts`) -/

/-- `status: 'completed' | 'pending' | 'cancelled'`. -/
inductive Status where
  | completed
  | pending
  | cancelled
deriving DecidableEq, Repr

/-- The `SalesRecord` row interface of `src/lib/supabase.ts`. -/
structure SalesRecord where
  id : String
  user_id : String
  date : CivilDate
  customer : String
  product : String
  category : String
  quantity : ℕ
  unit_price : ℚ
  total_amount : ℚ
  region : String
  status : Status
  created_at : String
  updated_at : String
deriving DecidableEq, Repr

/-- The derived `SalesMetrics` interface.  `completionRate` is the one field
whose computation can produce JavaScript's `NaN`, so it is a `JsNum`; every
other division in `getMetrics` has a guarded non-zero denominator. -/
structure SalesMetrics where
  totalRevenue : ℚ
  totalOrders : ℕ
  averageOrderValue : ℚ
  topProduct : String
  topRegion : String
  growthRate : ℚ
  completionRate : JsNum
deriving DecidableEq, Repr

/-! ## String-keyed accumulator objects

`completedOrders.reduce((acc, record) => { acc[k] = (acc[k] || 0) + v; ... })`
builds a plain object whose `Object.entries` enumeration is insertion order
for the string keys used here.  We model it as an association list: a fresh
key is appended at the end, an existing key's value is updated in place. -/

/-- Add `v` to the entry for `k`, appending `(k, v)` if `k` is absent
(insertion-ordered object accumulator). -/
def bumpEntry (k : String) (v : ℚ) : List (String × ℚ) → List (String × ℚ)
  | [] => [(k, v)]
  | e :: es => if e.1 = k then (e.1, e.2 + v) :: es else e :: bumpEntry k v es

/-- `records.reduce((acc, r) => { acc[key r] = (acc[key r] || 0) + r.total_amount; return acc }, {})`
followed by `Object.entries`. -/
def groupSum (key : SalesRecord → String) (records : List SalesRecord) :
    List (String × ℚ) :=
  records.foldl (fun acc r => bumpEntry (key r) r.total_amount acc) []

/-- Stable insertion of an entry into a list sorted by descending value:
the element goes in front of the first entry whose value it is ≥ to, so that
among equal values earlier (first-encountered) entries stay first — the
behaviour of JavaScript's (stable) `sort(([,a],[,b]) => b - a)`. -/
def insertDesc (x : String × ℚ) : List (String × ℚ) → List (String × ℚ)
  | [] => [x]
  | y :: ys => if x.2 ≥ y.2 then x :: y :: ys else y :: insertDesc x ys

/-- Stable descending-by-value sort of an entry list — the result of
`Object.entries(acc).sort(([,a],[,b]) => b - a)`. -/
def sortEntriesDesc : List (String × ℚ) → List (String × ℚ)
  | [] => []
  | x :: xs => insertDesc x (sortEntriesDesc xs)

/-- `Object.entries(acc).sort(([,a],[,b]) => b - a)[0]?.[0] || 'N/A'`. -/
def topKey (entries : List (String × ℚ)) : String :=
  match sortEntriesDesc entries with
  | [] => "N/A"
  | e :: _ => e.1

/-- The accumulated value of key `k` in an entry list (`acc[k] || 0`). -/
def entryVal (es : List (String × ℚ)) (k : String) : ℚ :=
  ((es.find? (fun e => e.1 = k)).map (fun e => e.2)).getD 0

/-! ## `DatabaseManager.getMetrics`

The method takes the user's record list (the awaited `getSalesData` result)
and the current instant `now` (milliseconds, `new Date().getTime()`); each
definition below mirrors one `const` of the method body. -/

/-- `salesData.filter(record => record.status === 'completed')`. -/
def completedOrders (salesData : List SalesRecord) : List SalesRecord :=
  salesData.filter (fun r => r.status = Status.completed)

/-- `completedOrders.reduce((sum, record) => sum + record.total_amount, 0)`. -/
def totalRevenue (salesData : List SalesRecord) : ℚ :=
  (completedOrders salesData).foldl (fun sum r => sum + r.total_amount) 0

/-- `salesData.length`. -/
def totalOrders (salesData : List SalesRecord) : ℕ :=
  salesData.length

/-- `totalRevenue / (completedOrders.length || 1)` — `x || 1` is `1` when
`x` is `0` and `x` otherwise. -/
def averageOrderValue (salesData : List SalesRecord) : ℚ :=
  totalRevenue salesData /
    (if (completedOrders salesData).length = 0 then 1 else ((completedOrders salesData).length : ℚ))

/-- The `productRevenue` accumulator of `getMetrics`. -/
def productRevenue (salesData : List SalesRecord) : List (String × ℚ) :=
  groupSum (fun r => r.product) (completedOrders salesData)

/-- The `regionRevenue` accumulator of `getMetrics`. -/
def regionRevenue (salesData : List SalesRecord) : List (String × ℚ) :=
  groupSum (fun r => r.region) (completedOrders salesData)

/-- `topProduct` of `getMetrics`. -/
def topProduct (salesData : List SalesRecord) : String :=
  topKey (productRevenue salesData)

/-- `topRegion` of `getMetrics`. -/
def topRegion (salesData : List SalesRecord) : String :=
  topKey (regionRevenue salesData)

/-- `completedOrders.filter(r => new Date(r.date) >= thirtyDaysAgo)
.reduce((sum, r) => sum + r.total_amount, 0)` — note: no upper bound. -/
def recentRevenue (salesData : List SalesRecord) (now : ℤ) : ℚ :=
  ((completedOrders salesData).filter
      (fun r => r.date.toMillis ≥ now - thirtyDaysMs)).foldl
    (fun sum r => sum + r.total_amount) 0

/-- `completedOrders.filter(r => new Date(r.date) >= sixtyDaysAgo && new Date(r.date) < thirtyDaysAgo)
.reduce((sum, r) => sum + r.total_amount, 0)`. -/
def previousRevenue (salesData : List SalesRecord) (now : ℤ) : ℚ :=
  ((completedOrders salesData).filter
      (fun r => r.date.toMillis ≥ now - 2 * thirtyDaysMs ∧ r.date.toMillis < now - thirtyDaysMs)).foldl
    (fun sum r => sum + r.total_amount) 0

/-- `previousRevenue > 0 ? ((recentRevenue - previousRevenue) / previousRevenue) * 100 : 0`. -/
def growthRate (salesData : List SalesRecord) (now : ℤ) : ℚ :=
  if previousRevenue salesData now > 0 then
    (recentRevenue salesData now - previousRevenue salesData now) / previousRevenue salesData now * 100
  else 0

/-- `(completedOrders.length / totalOrders) * 100` in JavaScript arithmetic
(`0 / 0 = NaN` when there are no records at all). -/
def completionRate (salesData : List SalesRecord) : JsNum :=
  jsMul (jsDiv (JsNum.num ((completedOrders salesData).length : ℚ))
               (JsNum.num ((totalOrders salesData : ℕ) : ℚ)))
        (JsNum.num 100)

/-- `DatabaseManager.getMetrics` over an already-fetched record list. -/
def getMetrics (salesData : List SalesRecord) (now : ℤ) : SalesMetrics :=
  { totalRevenue := totalRevenue salesData
    totalOrders := totalOrders salesData
    averageOrderValue := averageOrderValue salesData
    topProduct := topProduct salesData
    topRegion := topRegion salesData
    growthRate := growthRate salesData now
    completionRate := completionRate salesData }

/-! ## `DatabaseManager.getRevenueByMonth`

The method groups completed records by the label
`new Date(record.date).toLocaleDateString('en-US', { month: 'short', year: '2-digit' })`
(e.g. `"Dec 24"`), then sorts the buckets by
`new Date(label).getTime()`.  A label like `"Dec 24"` carries exactly the
record's calendar month and two-digit year, so we key buckets by that pair
and render the label string at the end.  Re-parsing the label with
`new Date("Dec 24")` does NOT recover the bucket's month: V8 reads the
month name, takes the two-digit number (≤ 31) as a DAY of month, and
defaults the year to 2001, so the sort key of a bucket `(m, yy)` is the
timestamp of day `yy` of month `m` of 2001. -/

/-- Generic insertion-ordered object accumulator (same as `bumpEntry` but
for an arbitrary key type). -/
def bumpEntryBy {α : Type} [DecidableEq α] (k : α) (v : ℚ) :
    List (α × ℚ) → List (α × ℚ)
  | [] => [(k, v)]
  | e :: es => if e.1 = k then (e.1, e.2 + v) :: es else e :: bumpEntryBy k v es

/-- Stable insertion for an ascending sort keyed by `key`: the element goes
in front of the first entry whose key it is ≤ to (JavaScript's stable
`sort((a, b) => key a - key b)`). -/
def insertAscBy {α : Type} (key : α → ℤ) (x : α) : List α → List α
  | [] => [x]
  | y :: ys => if key x ≤ key y then x :: y :: ys else y :: insertAscBy key x ys

/-- Stable ascending sort by an integer key. -/
def sortAscBy {α : Type} (key : α → ℤ) : List α → List α
  | [] => []
  | x :: xs => insertAscBy key x (sortAscBy key xs)

/-- `Array.prototype.slice(-n)`: the last `n` elements. -/
def sliceLast {α : Type} (n : ℕ) (l : List α) : List α :=
  l.drop (l.length - n)

/-- The month/two-digit-year pair denoted by a record's month label. -/
def monthLabelKey (dt : CivilDate) : ℕ × ℕ :=
  (dt.month, (dt.year % 100).toNat)

/-- Short English month name, as produced by `toLocaleDateString('en-US',
{ month: 'short' })`. -/
def monthShort : ℕ → String
  | 1 => "Jan" | 2 => "Feb" | 3 => "Mar" | 4 => "Apr"
  | 5 => "May" | 6 => "Jun" | 7 => "Jul" | 8 => "Aug"
  | 9 => "Sep" | 10 => "Oct" | 11 => "Nov" | 12 => "Dec"
  | _ => ""

/-- Two-digit rendering of the year part of the label. -/
def pad2 (n : ℕ) : String :=
  if n < 10 then "0" ++ toString n else toString n

/-- The label string `"Mon YY"` of a bucket. -/
def renderMonthLabel (p : ℕ × ℕ) : String :=
  monthShort p.1 ++ " " ++ pad2 p.2

/-- `new Date("Mon YY").getTime()` as used by the sort comparator: V8 parses
the month name, takes `YY` (≤ 31 in practice) as the day of month, and
defaults the year to 2001; the comparator only needs the day count. -/
def labelParseKey (p : ℕ × ℕ) : ℤ :=
  daysFromCivil 2001 p.1 p.2

/-- The `monthlyRevenue` accumulator of `getRevenueByMonth`:
`salesData.filter(r => r.status === 'completed').reduce(...)` keyed by the
month label. -/
def monthlyRevenue (salesData : List SalesRecord) : List ((ℕ × ℕ) × ℚ) :=
  (salesData.filter (fun r => r.status = Status.completed)).foldl
    (fun acc r => bumpEntryBy (monthLabelKey r.date) r.total_amount acc) []

/-- `Object.entries(monthlyRevenue).sort(([a],[b]) => new Date(a).getTime() - new Date(b).getTime()).slice(-6)`. -/
def sortedMonthlyEntries (salesData : List SalesRecord) : List ((ℕ × ℕ) × ℚ) :=
  sliceLast 6 (sortAscBy (fun e => labelParseKey e.1) (monthlyRevenue salesData))

/-- `DatabaseManager.getRevenueByMonth` over an already-fetched record list:
parallel label and `Math.round`ed value arrays. -/
def getRevenueByMonth (salesData : List SalesRecord) : List String × List ℤ :=
  ((sortedMonthlyEntries salesData).map (fun e => renderMonthLabel e.1),
   (sortedMonthlyEntries salesData).map (fun e => jsRound e.2))

/-! ## `DatasetViewer.calculateMetrics` and its completion-rate display -/

/-- The record of `DatasetViewer.calculateMetrics`. -/
structure ViewerMetrics where
  totalRevenue : ℚ
  averageOrderValue : ℚ
  completionRate : JsNum
deriving DecidableEq, Repr

/-- `DatasetViewer.calculateMetrics`: returns all-zero metrics when the data
set is empty, otherwise computes over the completed subset. -/
def viewerCalculateMetrics (data : List SalesRecord) : ViewerMetrics :=
  if data.length = 0 then
    { totalRevenue := 0, averageOrderValue := 0, completionRate := JsNum.num 0 }
  else
    let completed := data.filter (fun r => r.status = Status.completed)
    let rev := completed.foldl (fun sum r => sum + r.total_amount) 0
    { totalRevenue := rev
      averageOrderValue := rev / (if completed.length = 0 then 1 else (completed.length : ℚ))
      completionRate :=
        jsMul (jsDiv (JsNum.num (completed.length : ℚ)) (JsNum.num (data.length : ℚ)))
          (JsNum.num 100) }

/-- The value the dataset viewer shows on the completion-rate card:
`isNaN(metrics.completionRate) ? '0' : metrics.completionRate.toFixed(1)` —
modelled up to string formatting as the number displayed. -/
def viewerDisplayedCompletionRate (m : JsNum) : JsNum :=
  if jsIsNaN m then JsNum.num 0 else m

/-! ## Widget model and layout operations (`App` in the main component) -/

/-- `type ∈ {metric, chart, table, progress, text}`. -/
inductive WidgetType where
  | metric
  | chart
  | table
  | progress
  | text
deriving DecidableEq, Repr

/-- `position: {x, y}`. -/
structure Position where
  x : ℚ
  y : ℚ
deriving DecidableEq, Repr

/-- `size: {width, height}`. -/
structure Size where
  width : ℚ
  height : ℚ
deriving DecidableEq, Repr

/-- The `data.headers` / `data.rows` shape of a table widget. -/
structure TableData where
  headers : List String
  rows : List (List String)
deriving DecidableEq, Repr

/-- A widget's `data` bag: shape depends on the widget type; only the table
shape is structured further (the table edit operations act on it), any other
shape is carried opaquely. -/
inductive WidgetData where
  | table (t : TableData)
  | blob (s : String)
deriving DecidableEq, Repr

/-- The `Widget` interface: `config` is an untyped bag modelled as a
string-keyed association list. -/
structure Widget where
  id : String
  type : WidgetType
  title : String
  position : Position
  size : Size
  data : WidgetData
  config : List (String × String)
deriving DecidableEq, Repr

/-- `Partial<Widget>`: each field optionally present. -/
structure PartialWidget where
  id : Option String := none
  type : Option WidgetType := none
  title : Option String := none
  position : Option Position := none
  size : Option Size := none
  data : Option WidgetData := none
  config : Option (List (String × String)) := none
deriving DecidableEq, Repr

/-- `{ ...widget, ...updates }`: field-wise shallow merge, a present field of
`updates` wins. -/
def mergeWidget (w : Widget) (u : PartialWidget) : Widget :=
  { id := u.id.getD w.id
    type := u.type.getD w.type
    title := u.title.getD w.title
    position := u.position.getD w.position
    size := u.size.getD w.size
    data := u.data.getD w.data
    config := u.config.getD w.config }

/-- `App.updateWidget`: `prev.map(w => w.id === id ? { ...w, ...updates } : w)`. -/
def updateWidget (ws : List Widget) (id : String) (u : PartialWidget) : List Widget :=
  ws.map (fun w => if w.id = id then mergeWidget w u else w)

/-! ## `App`'s startup load of the persisted dashboard snapshot -/

/-- The persisted `DashboardLayout` blob. -/
structure DashboardLayout where
  title : String
  widgets : List Widget
  lastModified : String
deriving DecidableEq, Repr

/-- What `localStorage.getItem('dashboard-layout')` followed by `JSON.parse`
can produce: no stored item, a stored string `JSON.parse` throws on, or a
parsed layout value. -/
inductive StoredSnapshot where
  | absent
  | malformed
  | parsed (layout : DashboardLayout)
deriving DecidableEq, Repr

/-- The state the startup effect leaves behind: the widget list and title,
the error banner, and whether the demo loader `loadSalesDashboard()` was
invoked (that identifier is referenced in the no-snapshot branch but defined
nowhere in the module, so no demo widget list ever materialises from it). -/
structure AppLoadResult where
  widgets : List Widget
  title : String
  error : Option String
  demoRequested : Bool
deriving DecidableEq, Repr

/-- The `useState` initial values of `App`: `widgets = []`,
`dashboardTitle = 'Sales Dashboard'`. -/
def initialTitle : String := "Sales Dashboard"

/-- `App`'s startup effect: parse the saved snapshot, accept it only when
`validateDashboardData` passes (the validator lives in the untracked
`utils/helpers` module, so it is a parameter here), otherwise catch and set
the error banner; call the demo loader only when nothing was stored.
`data.widgets || []` keeps the array (always truthy); `data.title || 'User
Dashboard'` substitutes the default for an empty title. -/
def loadSavedDashboard (validate : DashboardLayout → Bool) :
    StoredSnapshot → AppLoadResult
  | StoredSnapshot.absent =>
      { widgets := [], title := initialTitle, error := none, demoRequested := true }
  | StoredSnapshot.malformed =>
      { widgets := [], title := initialTitle
        error := some "Failed to load saved dashboard. Loading default layout."
        demoRequested := false }
  | StoredSnapshot.parsed d =>
      if validate d then
        { widgets := d.widgets
          title := if d.title = "" then "User Dashboard" else d.title
          error := none, demoRequested := false }
      else
        { widgets := [], title := initialTitle
          error := some "Failed to load saved dashboard. Loading default layout."
          demoRequested := false }

/-! ## `TableWidget` structural edits

Each handler builds new `headers` / `rows` and hands them to
`onUpdateWidget`; we model the data transformation.  The row/column indices
always come from the render-time enumeration of `rows` / `headers`, so the
cell and header updates are modelled for in-range indices (`List.set`). -/

/-- `list.filter((_, index) => index !== i)`. -/
def removeAt {α : Type} : List α → ℕ → List α
  | [], _ => []
  | _ :: xs, 0 => xs
  | x :: xs, n + 1 => x :: removeAt xs n

/-- `addColumn`: append header `Column ${headers.length + 1}` and a
`'New Cell'` to every row. -/
def addColumn (t : TableData) : TableData :=
  { headers := t.headers ++ ["Column " ++ toString (t.headers.length + 1)]
    rows := t.rows.map (fun row => row ++ ["New Cell"]) }

/-- `removeColumn(columnIndex)`: no-op when `headers.length <= 1`, else drop
index `i` from the headers and from every row. -/
def removeColumn (t : TableData) (i : ℕ) : TableData :=
  if t.headers.length ≤ 1 then t
  else
    { headers := removeAt t.headers i
      rows := t.rows.map (fun row => removeAt row i) }

/-- `addRow`: append `headers.map((_, index) => 'Row ... Col ...')`. -/
def addRow (t : TableData) : TableData :=
  { headers := t.headers
    rows := t.rows ++
      [(List.range t.headers.length).map
        (fun j => "Row " ++ toString (t.rows.length + 1) ++ " Col " ++ toString (j + 1))] }

/-- `removeRow(rowIndex)`: no-op when `rows.length <= 1`, else drop row `i`. -/
def removeRow (t : TableData) (i : ℕ) : TableData :=
  if t.rows.length ≤ 1 then t
  else { headers := t.headers, rows := removeAt t.rows i }

/-- `updateCell(rowIndex, colIndex, value)` at render-provided (in-range)
indices. -/
def updateCell (t : TableData) (r c : ℕ) (v : String) : TableData :=
  { headers := t.headers
    rows := t.rows.set r ((t.rows.getD r []).set c v) }

/-- `updateHeader(colIndex, value)` at a render-provided (in-range) index. -/
def updateHeader (t : TableData) (c : ℕ) (v : String) : TableData :=
  { headers := t.headers.set c v, rows := t.rows }

/-- Rectangular table data with at least one header and one row: the shape
the table widget maintains. -/
def Rectangular (t : TableData) : Prop :=
  t.headers ≠ [] ∧ t.rows ≠ [] ∧ ∀ row ∈ t.rows, row.length = t.headers.length

/-! ## `DatabaseManager.updateSalesRecord` in mock mode

The `mockDataCache : Map<string, SalesRecord[]>` is modelled as an
insertion-ordered association list; the method returns the merged record or
throws, and leaves the cache as it was whenever it throws. -/

/-- `Partial<SalesRecord>`. -/
structure PartialSalesRecord where
  id : Option String := none
  user_id : Option String := none
  date : Option CivilDate := none
  customer : Option String := none
  product : Option String := none
  category : Option String := none
  quantity : Option ℕ := none
  unit_price : Option ℚ := none
  total_amount : Option ℚ := none
  region : Option String := none
  status : Option Status := none
  created_at : Option String := none
  updated_at : Option String := none
deriving DecidableEq, Repr

/-- `{ ...existing, ...updates, updated_at: new Date().toISOString() }`:
shallow merge with the fresh timestamp overriding any `updated_at` of the
update. -/
def mergeSalesRecord (r : SalesRecord) (u : PartialSalesRecord) (nowIso : String) :
    SalesRecord :=
  { id := u.id.getD r.id
    user_id := u.user_id.getD r.user_id
    date := u.date.getD r.date
    customer := u.customer.getD r.customer
    product := u.product.getD r.product
    category := u.category.getD r.category
    quantity := u.quantity.getD r.quantity
    unit_price := u.unit_price.getD r.unit_price
    total_amount := u.total_amount.getD r.total_amount
    region := u.region.getD r.region
    status := u.status.getD r.status
    created_at := u.created_at.getD r.created_at
    updated_at := nowIso }

/-- The mock-data cache: user id → that user's cached record list. -/
def MockCache : Type := List (String × List SalesRecord)

/-- `Map.get` composed with `Map.has`. -/
def cacheFind (c : MockCache) (uid : String) : Option (List SalesRecord) :=
  (c.find? (fun e => e.1 = uid)).map (fun e => e.2)

/-- `Map.set`: replace the value of an existing key, else append. -/
def cacheSet : MockCache → String → List SalesRecord → MockCache
  | [], uid, d => [(uid, d)]
  | e :: es, uid, d => if e.1 = uid then (uid, d) :: es else e :: cacheSet es uid d

/-- `findIndex(r => r.id === id)` followed by in-place replacement with the
merged record: returns the merged record and the updated list when a record
with the id exists (first match), `none` otherwise. -/
def updateFirstRecord (id : String) (u : PartialSalesRecord) (nowIso : String) :
    List SalesRecord → Option (SalesRecord × List SalesRecord)
  | [] => none
  | r :: rs =>
      if r.id = id then
        let m := mergeSalesRecord r u nowIso
        some (m, m :: rs)
      else
        match updateFirstRecord id u nowIso rs with
        | none => none
        | some (m, rs') => some (m, r :: rs')

/-- `DatabaseManager.updateSalesRecord` in mock mode (`supabase === null`):
`const userId = updates.user_id; if (userId && this.mockDataCache.has(userId))
{ ... }` — note the JavaScript truthiness test, under which an empty-string
`user_id` takes the throw branch.  Returns the thrown/returned outcome
together with the cache afterwards. -/
def updateSalesRecordMock (cache : MockCache) (id : String)
    (u : PartialSalesRecord) (nowIso : String) :
    Except String SalesRecord × MockCache :=
  match u.user_id with
  | some uid =>
      if uid ≠ "" then
        match cacheFind cache uid with
        | some existing =>
            match updateFirstRecord id u nowIso existing with
            | some (m, data') => (Except.ok m, cacheSet cache uid data')
            | none => (Except.error "Record not found", cache)
        | none => (Except.error "Record not found", cache)
      else (Except.error "Record not found", cache)
  | none => (Except.error "Record not found", cache)

/-! ## The spec's wording of the growth-rate windows (for comparison) -/

/-- The recent window as the spec words it: completed revenue with date from
`now - 30d` (inclusive) through `now`.  This definition follows the spec's
words, to be compared with `recentRevenue`, which the source computes with no
upper bound at `now`. -/
def specRecentRevenue (salesData : List SalesRecord) (now : ℤ) : ℚ :=
  ((completedOrders salesData).filter
      (fun r => r.date.toMillis ≥ now - thirtyDaysMs ∧ r.date.toMillis ≤ now)).foldl
    (fun sum r => sum + r.total_amount) 0

/-- The growth rate as the spec words it:
`(recent - previous) / previous * 100` when `previous > 0`, else `0`, with
the recent window bounded above by `now`. -/
def specGrowthRate (salesData : List SalesRecord) (now : ℤ) : ℚ :=
  if previousRevenue salesData now > 0 then
    (specRecentRevenue salesData now - previousRevenue salesData now) /
      previousRevenue salesData now * 100
  else 0

/-! ## Shared concrete inputs for witnesses and counterexamples -/

/-- A concrete sales record with the fields the aggregators look at. -/
def mkRec (id uid product region : String) (amt : ℚ) (st : Status)
    (date : CivilDate) : SalesRecord :=
  { id := id, user_id := uid, date := date, customer := "Acme Corp"
    product := product, category := "Software", quantity := 1
    unit_price := amt, total_amount := amt, region := region, status := st
    created_at := "", updated_at := "" }

/-! ## Helper lemmas -/

/-- A `reduce((sum, r) => sum + f r, init)` fold is `init` plus the sum of
the mapped list. -/
theorem foldl_add_map_sum {α : Type} (f : α → ℚ) :
    ∀ (l : List α) (init : ℚ),
      l.foldl (fun s x => s + f x) init = init + (l.map f).sum
  | [], init => by simp
  | a :: t, init => by
      simp only [List.foldl, List.map, List.sum_cons]
      rw [foldl_add_map_sum f t (init + f a)]
      ring

end Dashboard

namespace Dashboard

/-! ## Lemmas about the grouping accumulator and the stable descending sort -/

/-- Bumping a key leaves the accumulator nonempty. -/
theorem bumpEntry_ne_nil (k : String) (v : ℚ) :
    ∀ es, bumpEntry k v es ≠ []
  | [] => by simp [bumpEntry]
  | e :: es => by
      rw [bumpEntry]
      by_cases h : e.1 = k <;> simp [h]

/-- The grouping fold preserves nonemptiness of the accumulator. -/
theorem foldl_bump_ne_nil (key : SalesRecord → String) :
    ∀ (l : List SalesRecord) (acc : List (String × ℚ)), acc ≠ [] →
      l.foldl (fun a r => bumpEntry (key r) r.total_amount a) acc ≠ []
  | [], _, h => h
  | r :: t, acc, _ => by
      rw [List.foldl_cons]
      exact foldl_bump_ne_nil key t _ (bumpEntry_ne_nil (key r) r.total_amount acc)

/-- Grouping a nonempty record list yields a nonempty entry list. -/
theorem groupSum_ne_nil (key : SalesRecord → String) (l : List SalesRecord)
    (h : l ≠ []) : groupSum key l ≠ [] := by
  match l with
  | [] => exact absurd rfl h
  | r :: t =>
      rw [groupSum, List.foldl_cons]
      exact foldl_bump_ne_nil key t _ (bumpEntry_ne_nil (key r) r.total_amount [])

/-- Bumping `k` by `v` adds `v` to the value stored at `k`. -/
theorem entryVal_bumpEntry_self (k : String) (v : ℚ) :
    ∀ es, entryVal (bumpEntry k v es) k = entryVal es k + v
  | [] => by simp [bumpEntry, entryVal, List.find?]
  | e :: es => by
      rw [bumpEntry]
      by_cases h : e.1 = k
      · simp [entryVal, List.find?, h]
      · simp only [if_neg h, entryVal, List.find?]
        rw [show (decide (e.1 = k)) = false by simp [h]]
        exact entryVal_bumpEntry_self k v es

/-- Bumping `k` does not change the value stored at a different key. -/
theorem entryVal_bumpEntry_ne (k k' : String) (hk : k' ≠ k) (v : ℚ) :
    ∀ es, entryVal (bumpEntry k v es) k' = entryVal es k'
  | [] => by simp [bumpEntry, entryVal, List.find?, Ne.symm hk]
  | e :: es => by
      by_cases h : e.1 = k
      · have h' : ¬(e.1 = k') := by rw [h]; exact fun hh => hk hh.symm
        rw [bumpEntry, if_pos h, entryVal,
          List.find?_cons_of_neg _ (by simpa using h'), entryVal,
          List.find?_cons_of_neg _ (by simpa using h')]
      · by_cases h2 : e.1 = k'
        · rw [bumpEntry, if_neg h, entryVal,
            List.find?_cons_of_pos _ (by simpa using h2), entryVal,
            List.find?_cons_of_pos _ (by simpa using h2)]
        · rw [bumpEntry, if_neg h, entryVal,
            List.find?_cons_of_neg _ (by simpa using h2), entryVal,
            List.find?_cons_of_neg _ (by simpa using h2)]
          exact entryVal_bumpEntry_ne k k' hk v es

/-- The grouping fold computes, at each key, the sum of `total_amount` over
the records with that key (plus whatever the accumulator already stored). -/
theorem entryVal_foldl_bump (key : SalesRecord → String) (k : String) :
    ∀ (l : List SalesRecord) (acc : List (String × ℚ)),
      entryVal (l.foldl (fun a r => bumpEntry (key r) r.total_amount a) acc) k =
        entryVal acc k +
          ((l.filter (fun r => key r = k)).map SalesRecord.total_amount).sum
  | [], acc => by simp
  | r :: t, acc => by
      rw [List.foldl_cons, entryVal_foldl_bump key k t]
      by_cases h : key r = k
      · rw [h, entryVal_bumpEntry_self]
        simp [List.filter_cons, h]
        ring
      · rw [entryVal_bumpEntry_ne (key r) k (Ne.symm h)]
        simp [List.filter_cons, h]

/-- `groupSum` correctness: the stored value at `k` is the summed
`total_amount` of the records with key `k`. -/
theorem entryVal_groupSum (key : SalesRecord → String) (k : String)
    (l : List SalesRecord) :
    entryVal (groupSum key l) k =
      ((l.filter (fun r => key r = k)).map SalesRecord.total_amount).sum := by
  rw [groupSum, entryVal_foldl_bump]
  simp [entryVal]

/-- The head of the stable descending sort is an element of the original
list whose value is maximal and which comes before every other maximal
element: everything before it in the original order is strictly smaller. -/
theorem sortEntriesDesc_head :
    ∀ l : List (String × ℚ), l ≠ [] →
      ∃ e s l₁ l₂, sortEntriesDesc l = e :: s ∧ l = l₁ ++ e :: l₂ ∧
        (∀ p ∈ l₁, p.2 < e.2) ∧ ∀ p ∈ l, p.2 ≤ e.2
  | [], h => absurd rfl h
  | [a], _ => by
      refine ⟨a, [], [], [], rfl, rfl, by simp, ?_⟩
      intro p hp
      rw [List.mem_singleton.mp hp]
  | a :: b :: t, _ => by
      obtain ⟨e, s, l₁, l₂, hs, hd, hlt, hle⟩ :=
        sortEntriesDesc_head (b :: t) (List.cons_ne_nil b t)
      rw [show sortEntriesDesc (a :: b :: t) = insertDesc a (sortEntriesDesc (b :: t))
            from rfl, hs, insertDesc]
      by_cases hcmp : a.2 ≥ e.2
      · refine ⟨a, e :: s, [], b :: t, by rw [if_pos hcmp], rfl, by simp, ?_⟩
        intro p hp
        rcases List.mem_cons.mp hp with h | h
        · rw [h]
        · exact le_trans (hle p h) hcmp
      · refine ⟨e, insertDesc a s, a :: l₁, l₂, by rw [if_neg hcmp], ?_, ?_, ?_⟩
        · rw [List.cons_append, hd]
        · intro p hp
          rcases List.mem_cons.mp hp with h | h
          · rw [h]; exact lt_of_not_ge hcmp
          · exact hlt p h
        · intro p hp
          rcases List.mem_cons.mp hp with h | h
          · rw [h]; exact le_of_lt (lt_of_not_ge hcmp)
          · exact hle p h

/-- `topKey` of a nonempty entry list is the first key attaining the maximal
value. -/
theorem topKey_spec (l : List (String × ℚ)) (h : l ≠ []) :
    ∃ v l₁ l₂, l = l₁ ++ (topKey l, v) :: l₂ ∧
      (∀ p ∈ l₁, p.2 < v) ∧ ∀ p ∈ l, p.2 ≤ v := by
  obtain ⟨e, s, l₁, l₂, hs, hd, hlt, hle⟩ := sortEntriesDesc_head l h
  refine ⟨e.2, l₁, l₂, ?_, hlt, hle⟩
  rw [topKey, hs]
  simpa using hd

/-! ## C1 -/

/-- C1: for every record set, `getMetrics` returns `totalOrders` equal to the
number of records of any status, and `totalRevenue` equal to the sum of
`total_amount` over exactly the records with completed status. -/
theorem claim1_totals (sd : List SalesRecord) (now : ℤ) :
    (getMetrics sd now).totalOrders = sd.length ∧
    (getMetrics sd now).totalRevenue =
      ((sd.filter fun r => r.status = Status.completed).map
        SalesRecord.total_amount).sum := by
  refine ⟨rfl, ?_⟩
  show totalRevenue sd = _
  rw [totalRevenue, completedOrders, foldl_add_map_sum]
  simp

/-! ## C2 -/

/-- C2: the aggregator returns
`completionRate = count(completed) / totalOrders * 100`; when the record set
is empty (`totalOrders = 0`) the JavaScript division makes it `NaN`, and the
dataset viewer's display guard turns `NaN` into the displayed `0`. -/
theorem claim2_completion_rate (sd : List SalesRecord) (now : ℤ) :
    ((getMetrics sd now).completionRate =
      if (getMetrics sd now).totalOrders = 0 then JsNum.nan
      else JsNum.num (((completedOrders sd).length : ℚ) / ((sd.length : ℚ)) * 100)) ∧
    viewerDisplayedCompletionRate JsNum.nan = JsNum.num 0 := by
  refine ⟨?_, rfl⟩
  show completionRate sd = if totalOrders sd = 0 then _ else _
  by_cases h : sd.length = 0
  · have hsd : sd = [] := List.length_eq_zero.mp h
    subst hsd
    rfl
  · have hq : ((sd.length : ℚ)) ≠ 0 := by exact_mod_cast h
    rw [completionRate, totalOrders, jsDiv]
    simp [h, hq, jsMul]

/-! ## C3 -/

/-- C3 counterexample: with a completed record of 100 dated 40 days before
`now` and a completed record of 50 dated after `now`, the aggregator returns
`growthRate = -50` (its recent window has no upper bound, so the future
record counts) while the claim's windows give `-100`; hence the claim as
stated is false at this input. -/
theorem claim3_counterexample :
    (getMetrics
        [mkRec "p" "u" "P" "R" 100 Status.completed ⟨2025, 4, 20⟩,
         mkRec "f" "u" "P" "R" 50 Status.completed ⟨2025, 7, 10⟩]
        (daysFromCivil 2025 6 1 * 86400000)).growthRate = -50 ∧
    specGrowthRate
        [mkRec "p" "u" "P" "R" 100 Status.completed ⟨2025, 4, 20⟩,
         mkRec "f" "u" "P" "R" 50 Status.completed ⟨2025, 7, 10⟩]
        (daysFromCivil 2025 6 1 * 86400000) = -100 ∧
    ((-50 : ℚ) ≠ -100) := by
  have e1 : (CivilDate.mk 2025 4 20).toMillis = 1745107200000 := by decide
  have e2 : (CivilDate.mk 2025 7 10).toMillis = 1752105600000 := by decide
  have en : daysFromCivil 2025 6 1 * 86400000 = 1748736000000 := by decide
  refine ⟨?_, ?_, by norm_num⟩
  · show growthRate _ _ = -50
    norm_num [growthRate, recentRevenue, previousRevenue, completedOrders,
      mkRec, thirtyDaysMs, e1, e2, en]
  · norm_num [specGrowthRate, specRecentRevenue, previousRevenue, completedOrders,
      mkRec, thirtyDaysMs, e1, e2, en]

/-- C3 amended: the previous window is `[now-60d, now-30d)` and the recent
window is `date ≥ now-30d` with NO upper bound at `now`; consequently the
claim as stated holds exactly on record sets with no record dated after
`now`: for those, the aggregator's growth rate equals the spec's windowed
formula. -/
theorem claim3_growth_rate_windows (sd : List SalesRecord) (now : ℤ)
    (h : ∀ r ∈ sd, r.date.toMillis ≤ now) :
    (getMetrics sd now).growthRate = specGrowthRate sd now := by
  show growthRate sd now = specGrowthRate sd now
  have hfilter : specRecentRevenue sd now = recentRevenue sd now := by
    rw [specRecentRevenue, recentRevenue]
    congr 1
    apply List.filter_congr
    intro r hr
    have hle : r.date.toMillis ≤ now := h r (List.mem_of_mem_filter hr)
    simp [hle]
  rw [growthRate, specGrowthRate, hfilter]

/-- C3 witness: a record set with no future-dated record, on which the
aggregator agrees with the spec's windows. -/
theorem claim3_growth_rate_windows_witness :
    (∀ r ∈ [mkRec "p" "u" "P" "R" 100 Status.completed ⟨2025, 4, 20⟩,
            mkRec "q" "u" "P" "R" 50 Status.completed ⟨2025, 5, 20⟩],
        r.date.toMillis ≤ daysFromCivil 2025 6 1 * 86400000) ∧
    (getMetrics
        [mkRec "p" "u" "P" "R" 100 Status.completed ⟨2025, 4, 20⟩,
         mkRec "q" "u" "P" "R" 50 Status.completed ⟨2025, 5, 20⟩]
        (daysFromCivil 2025 6 1 * 86400000)).growthRate =
      specGrowthRate
        [mkRec "p" "u" "P" "R" 100 Status.completed ⟨2025, 4, 20⟩,
         mkRec "q" "u" "P" "R" 50 Status.completed ⟨2025, 5, 20⟩]
        (daysFromCivil 2025 6 1 * 86400000) :=
  ⟨by decide,
   claim3_growth_rate_windows _ _ (by decide)⟩

/-! ## C4 -/

/-- C4: `topProduct` and `topRegion` are, over the grouping of completed
records (whose per-key values are exactly the summed `total_amount` of the
completed records with that key), the key with the maximal sum, ties going
to the key first encountered in the grouping traversal; with no completed
records both are the sentinel `"N/A"`. -/
theorem claim4_top_product_region (sd : List SalesRecord) (now : ℤ) :
    (completedOrders sd = [] →
      (getMetrics sd now).topProduct = "N/A" ∧ (getMetrics sd now).topRegion = "N/A") ∧
    (∀ k, entryVal (productRevenue sd) k =
      (((completedOrders sd).filter (fun r => r.product = k)).map
        SalesRecord.total_amount).sum) ∧
    (∀ k, entryVal (regionRevenue sd) k =
      (((completedOrders sd).filter (fun r => r.region = k)).map
        SalesRecord.total_amount).sum) ∧
    (completedOrders sd ≠ [] →
      (∃ v l₁ l₂, productRevenue sd = l₁ ++ ((getMetrics sd now).topProduct, v) :: l₂ ∧
        (∀ p ∈ l₁, p.2 < v) ∧ ∀ p ∈ productRevenue sd, p.2 ≤ v) ∧
      (∃ v l₁ l₂, regionRevenue sd = l₁ ++ ((getMetrics sd now).topRegion, v) :: l₂ ∧
        (∀ p ∈ l₁, p.2 < v) ∧ ∀ p ∈ regionRevenue sd, p.2 ≤ v)) := by
  refine ⟨?_, ?_, ?_, ?_⟩
  · intro h
    constructor
    · show topProduct sd = "N/A"
      rw [topProduct, productRevenue, h]
      rfl
    · show topRegion sd = "N/A"
      rw [topRegion, regionRevenue, h]
      rfl
  · intro k
    exact entryVal_groupSum _ k _
  · intro k
    exact entryVal_groupSum _ k _
  · intro h
    constructor
    · exact topKey_spec (productRevenue sd)
        (groupSum_ne_nil _ (completedOrders sd) h)
    · exact topKey_spec (regionRevenue sd)
        (groupSum_ne_nil _ (completedOrders sd) h)

/-- C4 witness: the sentinel on an all-pending set, and the argmax
decomposition on a concrete set with completed records. -/
theorem claim4_top_product_region_witness :
    ((getMetrics [mkRec "a" "u" "P" "R" 7 Status.pending ⟨2025, 1, 5⟩] 0).topProduct = "N/A" ∧
      (getMetrics [mkRec "a" "u" "P" "R" 7 Status.pending ⟨2025, 1, 5⟩] 0).topRegion = "N/A") ∧
    (∃ v l₁ l₂,
      productRevenue
          [mkRec "a" "u" "Alpha" "West" 100 Status.completed ⟨2025, 1, 5⟩,
           mkRec "b" "u" "Beta" "East" 100 Status.completed ⟨2025, 1, 6⟩] =
        l₁ ++ ((getMetrics
          [mkRec "a" "u" "Alpha" "West" 100 Status.completed ⟨2025, 1, 5⟩,
           mkRec "b" "u" "Beta" "East" 100 Status.completed ⟨2025, 1, 6⟩] 0).topProduct, v) :: l₂ ∧
        (∀ p ∈ l₁, p.2 < v) ∧
        ∀ p ∈ productRevenue
          [mkRec "a" "u" "Alpha" "West" 100 Status.completed ⟨2025, 1, 5⟩,
           mkRec "b" "u" "Beta" "East" 100 Status.completed ⟨2025, 1, 6⟩], p.2 ≤ v) :=
  ⟨(claim4_top_product_region [mkRec "a" "u" "P" "R" 7 Status.pending ⟨2025, 1, 5⟩] 0).1
      (by simp [completedOrders, mkRec]),
   ((claim4_top_product_region
      [mkRec "a" "u" "Alpha" "West" 100 Status.completed ⟨2025, 1, 5⟩,
       mkRec "b" "u" "Beta" "East" 100 Status.completed ⟨2025, 1, 6⟩] 0).2.2.2
      (by simp [completedOrders, mkRec])).1⟩

/-! ## C5 -/

/-- C5: evaluation at a record set spanning a year boundary.  Two completed
records, 100 in December 2024 and 50 in January 2025, produce the output
labels `["Jan 25", "Dec 24"]` — January 2025 FIRST, although December 2024
is the earlier month (third conjunct) — because the sort comparator
re-parses the label `"Mon YY"` with `new Date`, which takes the two-digit
year as a day of month in 2001.  The output is therefore not chronologically
ascending and `slice(-6)` does not keep the most recent buckets. -/
theorem claim5_revenue_by_month_eval :
    getRevenueByMonth
        [mkRec "d" "u" "P" "R" 100 Status.completed ⟨2024, 12, 15⟩,
         mkRec "j" "u" "P" "R" 50 Status.completed ⟨2025, 1, 15⟩] =
      (["Jan 25", "Dec 24"], [50, 100]) ∧
    (sortedMonthlyEntries
        [mkRec "d" "u" "P" "R" 100 Status.completed ⟨2024, 12, 15⟩,
         mkRec "j" "u" "P" "R" 50 Status.completed ⟨2025, 1, 15⟩]).map Prod.fst =
      [(1, 25), (12, 24)] ∧
    daysFromCivil 2024 12 1 < daysFromCivil 2025 1 1 := by
  have m1 : monthLabelKey ⟨2024, 12, 15⟩ = (12, 24) := by decide
  have m2 : monthLabelKey ⟨2025, 1, 15⟩ = (1, 25) := by decide
  have k1 : labelParseKey (12, 24) = 11680 := by decide
  have k2 : labelParseKey (1, 25) = 11347 := by decide
  have r1 : renderMonthLabel (1, 25) = "Jan 25" := by decide
  have r2 : renderMonthLabel (12, 24) = "Dec 24" := by decide
  refine ⟨?_, ?_, by decide⟩
  · norm_num [getRevenueByMonth, sortedMonthlyEntries, monthlyRevenue, mkRec,
      m1, m2, bumpEntryBy, sortAscBy, insertAscBy, k1, k2, sliceLast,
      r1, r2, jsRound, List.filter]
  · norm_num [sortedMonthlyEntries, monthlyRevenue, mkRec, m1, m2,
      bumpEntryBy, sortAscBy, insertAscBy, k1, k2, sliceLast, List.filter]

/-! ## C6 -/

/-- C6: when a persisted snapshot exists but fails validation, the startup
effect discards it and sets the error banner, but the widget collection
stays EMPTY — no default/demo layout is loaded (first conjunct); when no
snapshot exists the effect merely invokes `loadSalesDashboard`, an
identifier defined nowhere in the module, and again no widgets appear
(second conjunct). -/
theorem claim6_invalid_snapshot (validate : DashboardLayout → Bool)
    (d : DashboardLayout) (h : validate d = false) :
    loadSavedDashboard validate (StoredSnapshot.parsed d) =
      { widgets := [], title := initialTitle
        error := some "Failed to load saved dashboard. Loading default layout."
        demoRequested := false } ∧
    loadSavedDashboard validate StoredSnapshot.absent =
      { widgets := [], title := initialTitle, error := none, demoRequested := true } := by
  constructor
  · rw [loadSavedDashboard]
    simp [h]
  · rfl

/-- C6 witness: a concrete parsed-but-rejected snapshot. -/
theorem claim6_invalid_snapshot_witness :
    loadSavedDashboard (fun _ => false)
        (StoredSnapshot.parsed ⟨"My Dashboard", [], "2025-01-01"⟩) =
      { widgets := [], title := initialTitle
        error := some "Failed to load saved dashboard. Loading default layout."
        demoRequested := false } :=
  (claim6_invalid_snapshot (fun _ => false) ⟨"My Dashboard", [], "2025-01-01"⟩ rfl).1

/-! ## C7 -/

/-- C7: `averageOrderValue = totalRevenue / max(count(completed), 1)`; the
division is always defined, `averageOrderValue * completedCount` equals
`totalRevenue` whenever there is a completed record, and the value is `0`
for the empty record set. -/
theorem claim7_average_order_value (sd : List SalesRecord) (now : ℤ) :
    (getMetrics sd now).averageOrderValue =
      (getMetrics sd now).totalRevenue / max (((completedOrders sd).length : ℚ)) 1 ∧
    (0 < (completedOrders sd).length →
      (getMetrics sd now).averageOrderValue * ((completedOrders sd).length : ℚ) =
        (getMetrics sd now).totalRevenue) ∧
    (sd = [] → (getMetrics sd now).averageOrderValue = 0) := by
  refine ⟨?_, ?_, ?_⟩
  · show averageOrderValue sd = totalRevenue sd / _
    rw [averageOrderValue]
    congr 1
    by_cases h : (completedOrders sd).length = 0
    · simp [h]
    · have h1 : (1 : ℚ) ≤ ((completedOrders sd).length : ℚ) := by
        exact_mod_cast Nat.one_le_iff_ne_zero.mpr h
      simp [h, max_eq_left h1]
  · intro hpos
    have h : (completedOrders sd).length ≠ 0 := Nat.pos_iff_ne_zero.mp hpos
    have hq : (((completedOrders sd).length : ℚ)) ≠ 0 := by exact_mod_cast h
    show averageOrderValue sd * _ = totalRevenue sd
    rw [averageOrderValue]
    simp [h]
  · intro hsd
    subst hsd
    show averageOrderValue [] = 0
    simp [averageOrderValue, totalRevenue, completedOrders]

/-- C7 witness: at a one-completed-record set the product identity holds,
and the empty set yields average `0`. -/
theorem claim7_average_order_value_witness :
    (0 < (completedOrders
        [mkRec "a" "u" "P" "R" 120 Status.completed ⟨2025, 3, 10⟩]).length ∧
      (getMetrics [mkRec "a" "u" "P" "R" 120 Status.completed ⟨2025, 3, 10⟩] 0).averageOrderValue *
          ((completedOrders
            [mkRec "a" "u" "P" "R" 120 Status.completed ⟨2025, 3, 10⟩]).length : ℚ) =
        (getMetrics [mkRec "a" "u" "P" "R" 120 Status.completed ⟨2025, 3, 10⟩] 0).totalRevenue) ∧
    (getMetrics [] 0).averageOrderValue = 0 :=
  ⟨⟨by decide,
    (claim7_average_order_value
      [mkRec "a" "u" "P" "R" 120 Status.completed ⟨2025, 3, 10⟩] 0).2.1 (by decide)⟩,
   (claim7_average_order_value [] 0).2.2 rfl⟩

/-! ## Lemmas about index removal and indexed access -/

/-- Length of `filter((_, index) => index !== i)`: one less when `i` is in
range, unchanged otherwise. -/
theorem removeAt_length {α : Type} :
    ∀ (l : List α) (i : ℕ),
      (removeAt l i).length = if i < l.length then l.length - 1 else l.length
  | [], i => by simp [removeAt]
  | _ :: xs, 0 => by simp [removeAt]
  | x :: xs, n + 1 => by
      rw [removeAt]
      simp only [List.length_cons, removeAt_length xs n]
      split_ifs <;> omega

/-- Removing an index keeps only elements of the original list. -/
theorem removeAt_mem {α : Type} :
    ∀ (l : List α) (i : ℕ) (a : α), a ∈ removeAt l i → a ∈ l
  | [], _, _, h => by simp [removeAt] at h
  | x :: xs, 0, a, h => List.mem_cons_of_mem x (by simpa [removeAt] using h)
  | x :: xs, n + 1, a, h => by
      rw [removeAt] at h
      rcases List.mem_cons.mp h with h | h
      · rw [h]; exact List.mem_cons_self x xs
      · exact List.mem_cons_of_mem x (removeAt_mem xs n a h)

/-- An in-range `getD` is a member of the list. -/
theorem getD_mem {α : Type} :
    ∀ (l : List α) (r : ℕ) (d : α), r < l.length → l.getD r d ∈ l
  | [], r, d, h => by simp at h
  | x :: xs, 0, d, _ => by simp
  | x :: xs, r + 1, d, h => by
      have : xs.getD r d ∈ xs :=
        getD_mem xs r d (by simpa using Nat.lt_of_succ_lt_succ h)
      simpa using Or.inr this

/-! ## C9 -/

/-- C9: every table edit preserves a rectangular shape with at least one
header and one row; `addColumn` appends a cell to every row, `removeColumn`
removes the i-th cell from every row, and `removeColumn` / `removeRow` are
no-ops when a single column / row remains.  Cell and header updates take
the in-range indices the table render enumerates. -/
theorem claim9_table_edits (t : TableData) (h : Rectangular t) :
    (Rectangular (addColumn t) ∧
      (addColumn t).rows = t.rows.map (fun row => row ++ ["New Cell"])) ∧
    (∀ i, Rectangular (removeColumn t i)) ∧
    (t.headers.length = 1 → ∀ i, removeColumn t i = t) ∧
    (∀ i, i < t.headers.length → 1 < t.headers.length →
      (removeColumn t i).headers = removeAt t.headers i ∧
      (removeColumn t i).rows = t.rows.map (fun row => removeAt row i)) ∧
    Rectangular (addRow t) ∧
    (∀ i, Rectangular (removeRow t i)) ∧
    (t.rows.length = 1 → ∀ i, removeRow t i = t) ∧
    (∀ r c v, r < t.rows.length → c < t.headers.length →
      Rectangular (updateCell t r c v)) ∧
    (∀ c v, c < t.headers.length → Rectangular (updateHeader t c v)) := by
  obtain ⟨hh, hr, hlen⟩ := h
  have hhpos : 0 < t.headers.length := List.length_pos.mpr hh
  have hrpos : 0 < t.rows.length := List.length_pos.mpr hr
  refine ⟨⟨⟨?_, ?_, ?_⟩, rfl⟩, ?_, ?_, ?_, ⟨?_, ?_, ?_⟩, ?_, ?_, ?_, ?_⟩
  · simp [addColumn]
  · simpa [addColumn] using hr
  · intro row hrow
    simp only [addColumn, List.mem_map] at hrow
    obtain ⟨row₀, h₀, rfl⟩ := hrow
    simp [addColumn, hlen row₀ h₀]
  · intro i
    rw [removeColumn]
    by_cases hc : t.headers.length ≤ 1
    · simp only [if_pos hc]
      exact ⟨hh, hr, hlen⟩
    · simp only [if_neg hc]
      refine ⟨?_, ?_, ?_⟩
      · have : 0 < (removeAt t.headers i).length := by
          rw [removeAt_length]; split_ifs <;> omega
        exact List.length_pos.mp this
      · simpa using hr
      · intro row hrow
        simp only [List.mem_map] at hrow
        obtain ⟨row₀, h₀, rfl⟩ := hrow
        rw [removeAt_length, removeAt_length, hlen row₀ h₀]
  · intro h1 i
    rw [removeColumn, if_pos (by omega)]
  · intro i hi hlen2
    rw [removeColumn, if_neg (by omega)]
    exact ⟨rfl, rfl⟩
  · exact hh
  · simp [addRow]
  · intro row hrow
    simp only [addRow, List.mem_append, List.mem_singleton] at hrow
    rcases hrow with h | h
    · simpa [addRow] using hlen row h
    · rw [h]; simp [addRow]
  · intro i
    rw [removeRow]
    by_cases hc : t.rows.length ≤ 1
    · simp only [if_pos hc]
      exact ⟨hh, hr, hlen⟩
    · simp only [if_neg hc]
      refine ⟨hh, ?_, ?_⟩
      · have : 0 < (removeAt t.rows i).length := by
          rw [removeAt_length]; split_ifs <;> omega
        exact List.length_pos.mp this
      · intro row hrow
        exact hlen row (removeAt_mem t.rows i row hrow)
  · intro h1 i
    rw [removeRow, if_pos (by omega)]
  · intro r c v hrlt hclt
    refine ⟨hh, ?_, ?_⟩
    · show t.rows.set r ((t.rows.getD r []).set c v) ≠ []
      have : 0 < (t.rows.set r ((t.rows.getD r []).set c v)).length := by
        rw [List.length_set]; exact hrpos
      exact List.length_pos.mp this
    · intro row hrow
      rcases List.mem_or_eq_of_mem_set hrow with hmem | heq
      · exact hlen row hmem
      · rw [heq, List.length_set]
        exact hlen _ (getD_mem t.rows r [] hrlt)
  · intro c v hclt
    refine ⟨?_, hr, ?_⟩
    · show t.headers.set c v ≠ []
      have : 0 < (t.headers.set c v).length := by
        rw [List.length_set]; exact hhpos
      exact List.length_pos.mp this
    · intro row hrow
      show row.length = (t.headers.set c v).length
      rw [List.length_set]
      exact hlen row hrow

/-- C9 witness: a concrete 2-column, 1-row rectangular table and its
column append. -/
theorem claim9_table_edits_witness :
    Rectangular (TableData.mk ["A", "B"] [["x", "y"]]) ∧
    Rectangular (addColumn (TableData.mk ["A", "B"] [["x", "y"]])) := by
  have hrect : Rectangular (TableData.mk ["A", "B"] [["x", "y"]]) :=
    ⟨by decide, by decide, by decide⟩
  exact ⟨hrect, (claim9_table_edits (TableData.mk ["A", "B"] [["x", "y"]]) hrect).1.1⟩

/-! ## C8 -/

/-- C8: `updateWidget id updates` keeps the list length and, position by
position, replaces exactly the widgets whose id matches by the shallow merge
with `updates`, leaving every other widget unchanged in value and position;
when no widget has the id the list is unchanged. -/
theorem claim8_update_widget (ws : List Widget) (id : String) (u : PartialWidget) :
    (∀ i : ℕ, (updateWidget ws id u)[i]? =
      (ws[i]?).map (fun w => if w.id = id then mergeWidget w u else w)) ∧
    ((∀ w ∈ ws, w.id ≠ id) → updateWidget ws id u = ws) := by
  constructor
  · intro i
    simp [updateWidget]
  · intro h
    have heach : ∀ w ∈ ws, (if w.id = id then mergeWidget w u else w) = w :=
      fun w hw => if_neg (h w hw)
    have h2 : ws.map (fun w => if w.id = id then mergeWidget w u else w) =
        ws.map (fun w => w) := List.map_congr_left heach
    rw [updateWidget, h2]
    simp

/-- C8 witness: an id absent from a one-widget list leaves it unchanged. -/
theorem claim8_update_widget_witness :
    (∀ w ∈ [Widget.mk "w" WidgetType.metric "T" ⟨0, 0⟩ ⟨300, 150⟩
        (WidgetData.blob "m") []], w.id ≠ "zz") ∧
    updateWidget [Widget.mk "w" WidgetType.metric "T" ⟨0, 0⟩ ⟨300, 150⟩
        (WidgetData.blob "m") []] "zz" {} =
      [Widget.mk "w" WidgetType.metric "T" ⟨0, 0⟩ ⟨300, 150⟩
        (WidgetData.blob "m") []] :=
  ⟨by decide,
   (claim8_update_widget [Widget.mk "w" WidgetType.metric "T" ⟨0, 0⟩ ⟨300, 150⟩
      (WidgetData.blob "m") []] "zz" {}).2 (by decide)⟩

/-! ## Lemmas about the mock-mode record update -/

/-- `findIndex` finds nothing when no record has the id. -/
theorem updateFirstRecord_none (id : String) (u : PartialSalesRecord) (nowIso : String) :
    ∀ l, (∀ r ∈ l, r.id ≠ id) → updateFirstRecord id u nowIso l = none
  | [], _ => rfl
  | r :: rs, h => by
      rw [updateFirstRecord, if_neg (h r (List.mem_cons_self r rs)),
        updateFirstRecord_none id u nowIso rs
          (fun x hx => h x (List.mem_cons_of_mem r hx))]

/-- `findIndex` followed by in-place replacement: at the first record whose
id matches, the merged record is stored and returned. -/
theorem updateFirstRecord_found (id : String) (u : PartialSalesRecord) (nowIso : String) :
    ∀ (pre : List SalesRecord) (r : SalesRecord) (post : List SalesRecord),
      (∀ x ∈ pre, x.id ≠ id) → r.id = id →
      updateFirstRecord id u nowIso (pre ++ r :: post) =
        some (mergeSalesRecord r u nowIso, pre ++ mergeSalesRecord r u nowIso :: post)
  | [], r, post, _, hr => by
      rw [List.nil_append, updateFirstRecord, if_pos hr, List.nil_append]
  | x :: pre, r, post, hpre, hr => by
      rw [List.cons_append, updateFirstRecord,
        if_neg (hpre x (List.mem_cons_self x pre)),
        updateFirstRecord_found id u nowIso pre r post
          (fun y hy => hpre y (List.mem_cons_of_mem x hy)) hr,
        List.cons_append]

/-! ## C10 -/

/-- C10 counterexample: a cached user keyed by the EMPTY string owns a
record whose id is requested, and `updates.user_id` is present (the empty
string), yet the mock update throws `Record not found`, because the source
guards with JavaScript truthiness (`if (userId && ...)`) and the empty
string is falsy.  The claim says this call should succeed. -/
theorem claim10_counterexample :
    (updateSalesRecordMock
        [("", [mkRec "r0" "" "P" "R" 10 Status.completed ⟨2025, 1, 1⟩])]
        "r0" { user_id := some "" } "2025-02-02T00:00:00.000Z").1 =
      Except.error "Record not found" ∧
    (updateSalesRecordMock
        [("", [mkRec "r0" "" "P" "R" 10 Status.completed ⟨2025, 1, 1⟩])]
        "r0" { user_id := some "" } "2025-02-02T00:00:00.000Z").2 =
      [("", [mkRec "r0" "" "P" "R" 10 Status.completed ⟨2025, 1, 1⟩])] ∧
    ({ user_id := some "" } : PartialSalesRecord).user_id = some "" ∧
    ((cacheFind [("", [mkRec "r0" "" "P" "R" 10 Status.completed ⟨2025, 1, 1⟩])]
        "").getD []).any (fun r => r.id = "r0") = true := by
  refine ⟨rfl, rfl, rfl, by decide⟩

/-- C10 amended: in mock mode the update throws `Record not found` — with
the cache unchanged — whenever `updates.user_id` is absent OR the empty
(falsy) string, or the cache list for `updates.user_id` contains no record
with the id; otherwise it replaces the first record with that id by the
shallow merge of the existing record with the updates plus a fresh
`updated_at`, and returns the merged record. -/
theorem claim10_update_sales_record (cache : MockCache) (id : String)
    (u : PartialSalesRecord) (nowIso : String) :
    (u.user_id = none →
      updateSalesRecordMock cache id u nowIso = (Except.error "Record not found", cache)) ∧
    (u.user_id = some "" →
      updateSalesRecordMock cache id u nowIso = (Except.error "Record not found", cache)) ∧
    (∀ uid, u.user_id = some uid → uid ≠ "" → cacheFind cache uid = none →
      updateSalesRecordMock cache id u nowIso = (Except.error "Record not found", cache)) ∧
    (∀ uid l, u.user_id = some uid → uid ≠ "" → cacheFind cache uid = some l →
      (∀ r ∈ l, r.id ≠ id) →
      updateSalesRecordMock cache id u nowIso = (Except.error "Record not found", cache)) ∧
    (∀ uid pre r post, u.user_id = some uid → uid ≠ "" →
      cacheFind cache uid = some (pre ++ r :: post) →
      (∀ x ∈ pre, x.id ≠ id) → r.id = id →
      updateSalesRecordMock cache id u nowIso =
        (Except.ok (mergeSalesRecord r u nowIso),
         cacheSet cache uid (pre ++ mergeSalesRecord r u nowIso :: post))) := by
  refine ⟨?_, ?_, ?_, ?_, ?_⟩
  · intro h
    simp [updateSalesRecordMock, h]
  · intro h
    simp [updateSalesRecordMock, h]
  · intro uid h1 h2 h3
    simp [updateSalesRecordMock, h1, h2, h3]
  · intro uid l h1 h2 h3 h4
    simp [updateSalesRecordMock, h1, h2, h3,
      updateFirstRecord_none id u nowIso l h4]
  · intro uid pre r post h1 h2 h3 h4 h5
    simp [updateSalesRecordMock, h1, h2, h3,
      updateFirstRecord_found id u nowIso pre r post h4 h5]

/-- C10 witness: a successful merge of the single cached record, and the
throw on an absent `user_id` with the cache unchanged. -/
theorem claim10_update_sales_record_witness :
    updateSalesRecordMock
        [("u1", [mkRec "r1" "u1" "P" "R" 10 Status.completed ⟨2025, 1, 1⟩])]
        "r1" { user_id := some "u1", quantity := some 3 } "NOW" =
      (Except.ok (mergeSalesRecord
          (mkRec "r1" "u1" "P" "R" 10 Status.completed ⟨2025, 1, 1⟩)
          { user_id := some "u1", quantity := some 3 } "NOW"),
       cacheSet [("u1", [mkRec "r1" "u1" "P" "R" 10 Status.completed ⟨2025, 1, 1⟩])]
         "u1" ([] ++ mergeSalesRecord
            (mkRec "r1" "u1" "P" "R" 10 Status.completed ⟨2025, 1, 1⟩)
            { user_id := some "u1", quantity := some 3 } "NOW" :: [])) ∧
    updateSalesRecordMock [] "x" ({} : PartialSalesRecord) "NOW" =
      (Except.error "Record not found", []) :=
  ⟨(claim10_update_sales_record
      [("u1", [mkRec "r1" "u1" "P" "R" 10 Status.completed ⟨2025, 1, 1⟩])]
      "r1" { user_id := some "u1", quantity := some 3 } "NOW").2.2.2.2
      "u1" [] (mkRec "r1" "u1" "P" "R" 10 Status.completed ⟨2025, 1, 1⟩) []
      rfl (by decide) rfl (by intro x hx; exact absurd hx (List.not_mem_nil x)) rfl,
   (claim10_update_sales_record [] "x" ({} : PartialSalesRecord) "NOW").1 rfl⟩

end Dashboard
